import Mathlib

/-!
Shallow embedding of the `wasi-process` crate (robot-rumble/wasi-process).

`src/pipe.rs` implements an in-memory unidirectional pipe (a copy of the
backing structure of tokio's `DuplexStream`): a `Pipe` holds a byte buffer,
a closed flag, a maximum buffer size, and parked read/write wakers; `LockPipe`
wraps it in `Arc<Mutex<..>>` and closes the pipe whenever a clone is dropped.

`src/lib.rs` implements `WasiProcess` (three tokio mpsc channels of bound 5
for stdin/stdout/stderr) and the `WasiStdin` async writer, and `add_stdio`
installs the pseudo-files from `src/stdio.rs` into a wasi state builder.

Bytes are modelled as `Nat`, wakers as `Nat` tokens; waking a waker is
modelled by returning the list of wakers woken by the operation.
-/

/-- A byte of pipe data (the content of the bytes is irrelevant to the
pipe logic, so any type with decidable equality works). -/
abbrev Byte := Nat

/-- A waker token. In the Rust source a `Waker` resumes a parked task when
`wake()` is called; here an operation returns the tokens it woke. -/
abbrev Waker := Nat

/-- The error kinds surfaced by the crate's IO operations. -/
inductive IOError where
  | brokenPipe
  | other (msg : String)
deriving DecidableEq, Repr

/-- Result of a fallible operation, mirroring Rust's `io::Result`. -/
inductive IORes (α : Type) where
  | ok (a : α)
  | err (e : IOError)
deriving DecidableEq, Repr

/-- `Poll` from Rust's `std::task`: either ready with a value or pending. -/
inductive Poll (α : Type) where
  | ready (a : α)
  | pending
deriving DecidableEq, Repr

/-- The `Pipe` state from `src/pipe.rs`: the byte buffer, the closed flag,
the maximum buffer size, and the optionally parked read/write wakers. -/
structure Pipe where
  buffer : List Byte
  is_closed : Bool
  max_buf_size : Nat
  read_waker : Option Waker
  write_waker : Option Waker
deriving DecidableEq, Repr

/-- `Pipe::new(max_buf_size)`: empty buffer, open, no parked wakers. -/
def Pipe.new (max_buf_size : Nat) : Pipe :=
  { buffer := []
    is_closed := false
    max_buf_size := max_buf_size
    read_waker := none
    write_waker := none }

/-- `Pipe::close`: sets `is_closed` and wakes a parked reader (and only a
parked reader; the write waker is left untouched). Returns the new state
and the list of wakers woken. -/
def Pipe.close (p : Pipe) : Pipe × List Waker :=
  ({ p with is_closed := true, read_waker := none }, p.read_waker.toList)

/-- Outcome of `poll_read`: the new pipe state, the poll result carrying the
bytes copied into the destination buffer, and the wakers woken. -/
structure ReadOutcome where
  pipe : Pipe
  result : Poll (IORes (List Byte))
  woken : List Waker
deriving DecidableEq, Repr

/-- `Pipe::poll_read` (src/pipe.rs lines 62-87). `w` is the caller's waker,
`bufCap` the remaining capacity of the destination `ReadBuf`.
If the buffer has remaining bytes, copies `min remaining bufCap` of them,
advances the buffer, and wakes a parked writer only when at least one byte
moved; if the buffer is empty and the pipe closed, returns a ready
zero-byte read; otherwise parks the caller's waker and returns pending. -/
def Pipe.poll_read (p : Pipe) (w : Waker) (bufCap : Nat) : ReadOutcome :=
  if p.buffer ≠ [] then
    let max := min p.buffer.length bufCap
    let p1 : Pipe := { p with buffer := p.buffer.drop max }
    if 0 < max then
      { pipe := { p1 with write_waker := none }
        result := .ready (.ok (p.buffer.take max))
        woken := p.write_waker.toList }
    else
      { pipe := p1, result := .ready (.ok (p.buffer.take max)), woken := [] }
  else if p.is_closed then
    { pipe := p, result := .ready (.ok []), woken := [] }
  else
    { pipe := { p with read_waker := some w }, result := .pending, woken := [] }

/-- Outcome of `poll_write`: new pipe state, poll result carrying the number
of bytes accepted, and the wakers woken. -/
structure WriteOutcome where
  pipe : Pipe
  result : Poll (IORes Nat)
  woken : List Waker
deriving DecidableEq, Repr

/-- `Pipe::poll_write` (src/pipe.rs lines 89-110). If closed, fails with
`BrokenPipe`. If no space is available, parks the caller's waker and returns
pending. Otherwise appends `min buf.length avail` bytes and unconditionally
wakes a parked reader (the source has no moved-bytes guard here). -/
def Pipe.poll_write (p : Pipe) (w : Waker) (buf : List Byte) : WriteOutcome :=
  if p.is_closed then
    { pipe := p, result := .ready (.err .brokenPipe), woken := [] }
  else
    let avail := p.max_buf_size - p.buffer.length
    if avail = 0 then
      { pipe := { p with write_waker := some w }, result := .pending, woken := [] }
    else
      let len := min buf.length avail
      { pipe := { p with buffer := p.buffer ++ buf.take len, read_waker := none }
        result := .ready (.ok len)
        woken := p.read_waker.toList }

/-- `Pipe::poll_flush` is a no-op returning ready. -/
def Pipe.poll_flush (p : Pipe) : Pipe × Poll (IORes Unit) :=
  (p, .ready (.ok ()))

/-- `Pipe::poll_shutdown` calls `close` and returns ready. -/
def Pipe.poll_shutdown (p : Pipe) : Pipe × Poll (IORes Unit) × List Waker :=
  ((p.close).1, .ready (.ok ()), (p.close).2)

/-- One operation on a pipe, for reasoning about arbitrary operation
sequences. -/
inductive PipeOp where
  | read (w : Waker) (bufCap : Nat)
  | write (w : Waker) (buf : List Byte)
  | flush
  | shutdown
deriving DecidableEq, Repr

/-- The state transition of a single operation (the poll result is
discarded; only the pipe state is tracked). -/
def Pipe.step (p : Pipe) (op : PipeOp) : Pipe :=
  match op with
  | .read w k => (p.poll_read w k).pipe
  | .write w b => (p.poll_write w b).pipe
  | .flush => (p.poll_flush).1
  | .shutdown => (p.poll_shutdown).1

/-- Run a sequence of operations from a starting state. -/
def Pipe.run (p : Pipe) (ops : List PipeOp) : Pipe :=
  ops.foldl Pipe.step p

/-- The bytes delivered by a read result: the payload of a ready `Ok`,
nothing for pending (an errored read delivers nothing; `poll_read` in fact
never errors). -/
def readBytes : Poll (IORes (List Byte)) → List Byte
  | .ready (.ok bs) => bs
  | _ => []

/-- Run a sequence of reads, collecting the bytes each one delivered. -/
def Pipe.runReads (p : Pipe) : List (Waker × Nat) → List (List Byte) × Pipe
  | [] => ([], p)
  | (w, k) :: rest =>
    let o := p.poll_read w k
    let r := Pipe.runReads o.pipe rest
    (readBytes o.result :: r.1, r.2)

theorem poll_read_frame (p : Pipe) (w : Waker) (k : Nat) :
    readBytes (p.poll_read w k).result ++ (p.poll_read w k).pipe.buffer
      = p.buffer := by
  unfold Pipe.poll_read
  by_cases hb : p.buffer = []
  · by_cases hc : p.is_closed <;> simp [hb, hc, readBytes]
  · by_cases hm : 0 < min p.buffer.length k <;>
      simp [hb, hm, readBytes, List.take_append_drop]

theorem poll_read_closed_eq (p : Pipe) (w : Waker) (k : Nat) :
    (p.poll_read w k).pipe.is_closed = p.is_closed := by
  unfold Pipe.poll_read
  by_cases hb : p.buffer = []
  · by_cases hc : p.is_closed <;> simp [hb, hc]
  · by_cases hm : 0 < min p.buffer.length k <;> simp [hb, hm]

theorem runReads_join (p : Pipe) (ks : List (Waker × Nat)) :
    (Pipe.runReads p ks).1.flatten ++ (Pipe.runReads p ks).2.buffer = p.buffer := by
  induction ks generalizing p with
  | nil => simp [Pipe.runReads]
  | cons hd tl ih =>
    obtain ⟨w, k⟩ := hd
    simp only [Pipe.runReads, List.flatten_cons, List.append_assoc]
    rw [ih, poll_read_frame]

theorem runReads_closed_eq (p : Pipe) (ks : List (Waker × Nat)) :
    (Pipe.runReads p ks).2.is_closed = p.is_closed := by
  induction ks generalizing p with
  | nil => simp [Pipe.runReads]
  | cons hd tl ih =>
    obtain ⟨w, k⟩ := hd
    simp only [Pipe.runReads]
    rw [ih, poll_read_closed_eq]

theorem step_max_eq (p : Pipe) (op : PipeOp) :
    (p.step op).max_buf_size = p.max_buf_size := by
  cases op with
  | read w k =>
    simp only [Pipe.step]
    unfold Pipe.poll_read
    by_cases hb : p.buffer = []
    · by_cases hc : p.is_closed <;> simp [hb, hc]
    · by_cases hm : 0 < min p.buffer.length k <;> simp [hb, hm]
  | write w b =>
    simp only [Pipe.step]
    unfold Pipe.poll_write
    by_cases hc : p.is_closed
    · simp [hc]
    · by_cases ha : p.max_buf_size - p.buffer.length = 0 <;> simp [hc, ha]
  | flush => rfl
  | shutdown => rfl

theorem step_buffer_le (p : Pipe) (op : PipeOp)
    (h : p.buffer.length ≤ p.max_buf_size) :
    (p.step op).buffer.length ≤ p.max_buf_size := by
  cases op with
  | read w k =>
    simp only [Pipe.step]
    unfold Pipe.poll_read
    by_cases hb : p.buffer = []
    · by_cases hc : p.is_closed <;> simp [hb, hc, h]
    · by_cases hm : 0 < min p.buffer.length k <;>
        · simp only [hb, hm, if_true, if_false, ite_true, ite_false, ne_eq,
            not_false_iff]
          simp [List.length_drop]
          omega
  | write w b =>
    simp only [Pipe.step]
    unfold Pipe.poll_write
    by_cases hc : p.is_closed
    · simp [hc, h]
    · by_cases ha : p.max_buf_size - p.buffer.length = 0
      · simp [hc, ha, h]
      · simp [hc, ha, List.length_append, List.length_take]
        omega
  | flush => exact h
  | shutdown => exact h

theorem run_max_eq (p : Pipe) (ops : List PipeOp) :
    (Pipe.run p ops).max_buf_size = p.max_buf_size := by
  induction ops generalizing p with
  | nil => rfl
  | cons op ops ih =>
    show (Pipe.run (p.step op) ops).max_buf_size = _
    rw [ih, step_max_eq]

theorem run_buffer_le (p : Pipe) (ops : List PipeOp)
    (h : p.buffer.length ≤ p.max_buf_size) :
    (Pipe.run p ops).buffer.length ≤ p.max_buf_size := by
  induction ops generalizing p with
  | nil => exact h
  | cons op ops ih =>
    show (Pipe.run (p.step op) ops).buffer.length ≤ _
    rw [← step_max_eq p op]
    exact ih _ (by rw [step_max_eq]; exact step_buffer_le p op h)

/-- Claim C1: for every pipe created with capacity `C` and every sequence of
operations, the buffered byte count never exceeds `C`; a write with space
available appends exactly `min buf.length (C - buffer.length)` bytes and
returns that count; a write when `C - buffer.length = 0` suspends without
appending. -/
theorem c1_capacity_invariant (C : Nat) (ops : List PipeOp) (p : Pipe)
    (hp : p = Pipe.run (Pipe.new C) ops) (w : Waker) (buf : List Byte) :
    p.buffer.length ≤ C ∧
    (p.is_closed = false → C - p.buffer.length ≠ 0 →
      (p.poll_write w buf).result = .ready (.ok (min buf.length (C - p.buffer.length))) ∧
      (p.poll_write w buf).pipe.buffer
        = p.buffer ++ buf.take (min buf.length (C - p.buffer.length)) ∧
      (p.poll_write w buf).pipe.buffer.length ≤ C) ∧
    (p.is_closed = false → C - p.buffer.length = 0 →
      (p.poll_write w buf).result = .pending ∧
      (p.poll_write w buf).pipe.buffer = p.buffer) := by
  have hmax : p.max_buf_size = C := by
    rw [hp, run_max_eq]; rfl
  have hlen : p.buffer.length ≤ C := by
    rw [hp]
    have h0 : (Pipe.new C).buffer.length ≤ (Pipe.new C).max_buf_size := by
      simp [Pipe.new]
    have := run_buffer_le (Pipe.new C) ops h0
    simpa [Pipe.new] using this
  refine ⟨hlen, ?_, ?_⟩
  · intro hopen hav
    unfold Pipe.poll_write
    rw [hmax] at *
    simp only [hopen, hav, if_false, ite_false, Bool.false_eq_true]
    refine ⟨by trivial, by trivial, ?_⟩
    simp [List.length_append, List.length_take]
    omega
  · intro hopen hav
    unfold Pipe.poll_write
    rw [hmax] at *
    simp [hopen, hav]

theorem c1_capacity_invariant_witness :
    (Pipe.run (Pipe.new 2) [PipeOp.write 0 [9, 9, 9]]).buffer.length ≤ 2 :=
  (c1_capacity_invariant 2 [PipeOp.write 0 [9, 9, 9]]
    (Pipe.run (Pipe.new 2) [PipeOp.write 0 [9, 9, 9]]) rfl 0 []).1

theorem poll_write_fits (p : Pipe) (w : Waker) (buf : List Byte)
    (hopen : p.is_closed = false)
    (hfit : p.buffer.length + buf.length ≤ p.max_buf_size) :
    (p.poll_write w buf).pipe.buffer = p.buffer ++ buf ∧
    (p.poll_write w buf).pipe.is_closed = false ∧
    (p.poll_write w buf).pipe.max_buf_size = p.max_buf_size := by
  unfold Pipe.poll_write
  by_cases ha : p.max_buf_size - p.buffer.length = 0
  · have hb : buf = [] := by
      have : buf.length = 0 := by omega
      exact List.length_eq_zero.mp this
    simp [hopen, ha, hb]
  · have hlen : min buf.length (p.max_buf_size - p.buffer.length) = buf.length := by
      omega
    simp [hopen, ha, hlen, List.take_length]

/-- Claim C2: bytes `A` then `B` written before any read (with enough
capacity for both writes to be accepted in full) are reproduced as `A ++ B`
by any sequence of reads that drains the pipe, no matter how many reads are
used or how large their destination buffers are. -/
theorem c2_fifo (C : Nat) (A B : List Byte) (w1 w2 : Waker)
    (h : A.length + B.length ≤ C) (ks : List (Waker × Nat)) (p2 : Pipe)
    (hp : p2 = (((Pipe.new C).poll_write w1 A).pipe.poll_write w2 B).pipe)
    (hdrain : (Pipe.runReads p2 ks).2.buffer = []) :
    (Pipe.runReads p2 ks).1.flatten = A ++ B := by
  have h1 := poll_write_fits (Pipe.new C) w1 A (by rfl)
    (by simp [Pipe.new]; omega)
  have h2 := poll_write_fits ((Pipe.new C).poll_write w1 A).pipe w2 B
    h1.2.1 (by rw [h1.1, h1.2.2]; simp [Pipe.new]; omega)
  have hbuf : p2.buffer = A ++ B := by
    rw [hp, h2.1, h1.1]
    simp [Pipe.new]
  have := runReads_join p2 ks
  rw [hdrain, hbuf] at this
  simpa using this

theorem c2_fifo_witness :
    (Pipe.runReads
      (((Pipe.new 4).poll_write 0 [1, 2]).pipe.poll_write 0 [3]).pipe
      [(0, 10)]).1.flatten = [1, 2] ++ [3] :=
  c2_fifo 4 [1, 2] [3] 0 0 (by decide) [(0, 10)]
    (((Pipe.new 4).poll_write 0 [1, 2]).pipe.poll_write 0 [3]).pipe rfl
    (by decide)

/-- Claim C3: on a closed pipe, draining reads return all buffered bytes in
order; once the buffer is empty a further read is a successful zero-length
read that leaves the pipe unchanged; `poll_read` never returns an error on
any pipe; and `close` is idempotent. -/
theorem c3_close_then_drain (p : Pipe) (hcl : p.is_closed = true)
    (w : Waker) (k : Nat) (ks : List (Waker × Nat)) :
    ((Pipe.runReads p ks).2.buffer = [] →
      (Pipe.runReads p ks).1.flatten = p.buffer) ∧
    ((Pipe.runReads p ks).2.buffer = [] →
      ((Pipe.runReads p ks).2.poll_read w k).result = .ready (.ok []) ∧
      ((Pipe.runReads p ks).2.poll_read w k).pipe = (Pipe.runReads p ks).2) ∧
    (∀ (q : Pipe) (w2 : Waker) (k2 : Nat) (e : IOError),
      (q.poll_read w2 k2).result ≠ .ready (.err e)) ∧
    (∀ (q : Pipe), ((q.close).1.close).1 = (q.close).1) := by
  refine ⟨?_, ?_, ?_, ?_⟩
  · intro hd
    have := runReads_join p ks
    rw [hd] at this
    simpa using this
  · intro hd
    have hc2 : (Pipe.runReads p ks).2.is_closed = true := by
      rw [runReads_closed_eq, hcl]
    unfold Pipe.poll_read
    simp [hd, hc2]
  · intro q w2 k2 e
    unfold Pipe.poll_read
    by_cases hb : q.buffer = []
    · by_cases hc : q.is_closed <;> simp [hb, hc]
    · by_cases hm : 0 < min q.buffer.length k2 <;> simp [hb, hm]
  · intro q
    simp [Pipe.close]

theorem c3_close_then_drain_witness :
    (Pipe.runReads
      ((((Pipe.new 8).poll_write 0 [104, 101, 108, 108, 111]).pipe.close).1)
      [(1, 8)]).1.flatten = [104, 101, 108, 108, 111] :=
  ((c3_close_then_drain
      ((((Pipe.new 8).poll_write 0 [104, 101, 108, 108, 111]).pipe.close).1)
      (by decide) 1 8 [(1, 8)]).1 (by decide)).trans (by decide)

/-- Claim C4: a write on a closed pipe fails with `BrokenPipe`, leaves the
state unchanged, and the bytes buffered at closing time are still fully
readable by a subsequent drain. -/
theorem c4_post_close_write (p : Pipe) (hcl : p.is_closed = true)
    (w : Waker) (buf : List Byte) (ks : List (Waker × Nat)) :
    (p.poll_write w buf).result = .ready (.err .brokenPipe) ∧
    (p.poll_write w buf).pipe = p ∧
    ((Pipe.runReads (p.poll_write w buf).pipe ks).2.buffer = [] →
      (Pipe.runReads (p.poll_write w buf).pipe ks).1.flatten = p.buffer) := by
  have hpw : p.poll_write w buf
      = ⟨p, .ready (.err .brokenPipe), []⟩ := by
    unfold Pipe.poll_write
    simp [hcl]
  refine ⟨by rw [hpw], by rw [hpw], ?_⟩
  intro hd
  have hj := runReads_join (p.poll_write w buf).pipe ks
  rw [hd] at hj
  rw [hpw] at hj ⊢
  simpa using hj

theorem c4_post_close_write_witness :
    (((((Pipe.new 4).poll_write 0 [5, 6]).pipe.close).1.poll_write 2 [7]).result
      = Poll.ready (.err .brokenPipe)) :=
  (c4_post_close_write ((((Pipe.new 4).poll_write 0 [5, 6]).pipe.close).1)
    (by decide) 2 [7] []).1

/-- Claim C5 counterexample: from a fresh pipe of capacity 4, a reader polls
the empty pipe and parks its waker (token 7); a subsequent zero-length write
to the still-empty (hence non-full), non-closed pipe returns `Ok 0` — no
bytes moved — yet wakes the parked reader, because `poll_write` has no
moved-bytes guard. This refutes "a zero-length write never resumes a
suspended reader". -/
theorem c5_counterexample :
    (((Pipe.new 4).poll_read 7 1).pipe.read_waker = some 7) ∧
    (((Pipe.new 4).poll_read 7 1).pipe.is_closed = false) ∧
    (((Pipe.new 4).poll_read 7 1).pipe.max_buf_size
      - ((Pipe.new 4).poll_read 7 1).pipe.buffer.length ≠ 0) ∧
    ((((Pipe.new 4).poll_read 7 1).pipe.poll_write 9 []).result
      = .ready (.ok 0)) ∧
    ((((Pipe.new 4).poll_read 7 1).pipe.poll_write 9 []).woken = [7]) := by
  decide

/-- Claim C5 as amended: a zero-length write to a non-full, non-closed pipe
succeeds with `Ok 0`, leaves the buffer unchanged, and DOES wake a parked
reader (the reader waker is woken on every successful write, moved bytes or
not); a read with a zero-length destination buffer never wakes anyone; and a
read on an empty, non-closed pipe suspends, parking the caller's waker. -/
theorem c5_amended (p : Pipe) (w w2 : Waker) (k : Nat)
    (hopen : p.is_closed = false) :
    (p.max_buf_size - p.buffer.length ≠ 0 →
      (p.poll_write w []).result = .ready (.ok 0) ∧
      (p.poll_write w []).pipe.buffer = p.buffer ∧
      (p.poll_write w []).woken = p.read_waker.toList) ∧
    ((p.poll_read w2 0).woken = []) ∧
    (p.buffer = [] →
      (p.poll_read w2 k).result = .pending ∧
      (p.poll_read w2 k).pipe.read_waker = some w2) := by
  refine ⟨?_, ?_, ?_⟩
  · intro hav
    unfold Pipe.poll_write
    simp [hopen, hav]
  · unfold Pipe.poll_read
    by_cases hb : p.buffer = []
    · by_cases hc : p.is_closed <;> simp [hb, hc]
    · simp [hb]
  · intro hb
    unfold Pipe.poll_read
    simp [hb, hopen]

theorem c5_amended_witness :
    ((((Pipe.new 4).poll_read 7 1).pipe.poll_write 9 []).woken
      = ((Pipe.new 4).poll_read 7 1).pipe.read_waker.toList) :=
  ((c5_amended (((Pipe.new 4).poll_read 7 1).pipe) 9 8 1 (by decide)).1
    (by decide)).2.2

/-- Claim C6: evaluation at the failing input. Fill a capacity-1 pipe
(write of `[42, 43]` accepts one byte), park a writer (token 5) with a
second write that returns pending, then close the pipe: `close` wakes
nobody (it only ever takes the read waker, and none is parked) and the
writer's waker stays parked, so the suspended writer is never resumed by
close — contradicting the claim. A read that moves a byte does wake it
(last conjunct), so only the close half fails. -/
theorem c6_close_leaves_writer_parked :
    (((Pipe.new 1).poll_write 3 [42, 43]).result = .ready (.ok 1)) ∧
    ((((Pipe.new 1).poll_write 3 [42, 43]).pipe.poll_write 5 [44]).result
      = .pending) ∧
    ((((Pipe.new 1).poll_write 3 [42, 43]).pipe.poll_write 5 [44]).pipe.write_waker
      = some 5) ∧
    (((((Pipe.new 1).poll_write 3 [42, 43]).pipe.poll_write 5 [44]).pipe.close).2
      = []) ∧
    (((((Pipe.new 1).poll_write 3 [42, 43]).pipe.poll_write 5 [44]).pipe.close).1.write_waker
      = some 5) ∧
    (((((Pipe.new 1).poll_write 3 [42, 43]).pipe.poll_write 5 [44]).pipe.poll_read 9 1).woken
      = [5]) := by
  decide

/-- The shared handle `LockPipe` from `src/pipe.rs`: an `Arc<Mutex<Pipe>>`
modelled as the number of live clones plus the shared pipe state.
`clone` bumps the share count. `drop` models dropping one clone: per
`impl Drop for LockPipe` (src/pipe.rs lines 163-168) it calls `close()` on
the shared pipe unconditionally — on every drop, not only the last —
and the share count decreases by one. -/
structure LockPipe where
  clones : Nat
  pipe : Pipe
deriving DecidableEq, Repr

/-- `LockPipe::new(max_buf_size)`: one live handle over a fresh pipe. -/
def LockPipe.new (max_buf_size : Nat) : LockPipe :=
  { clones := 1, pipe := Pipe.new max_buf_size }

/-- `Clone for LockPipe` (derived): one more live handle, same pipe. -/
def LockPipe.clone (s : LockPipe) : LockPipe :=
  { s with clones := s.clones + 1 }

/-- Dropping one `LockPipe` handle: runs `Drop::drop`, which closes the
shared pipe, whatever the remaining share count. Returns the new state and
the wakers woken by the close. -/
def LockPipe.drop (s : LockPipe) : LockPipe × List Waker :=
  ({ clones := s.clones - 1, pipe := (s.pipe.close).1 }, (s.pipe.close).2)

/-- Claim C7 counterexample: two live clones of a fresh `LockPipe`;
dropping one leaves another clone alive, yet the underlying pipe's closed
flag is already set — `Drop for LockPipe` closes on every drop, not only
the last. -/
theorem c7_counterexample :
    (((LockPipe.new 4).clone.drop).1.clones = 1) ∧
    (((LockPipe.new 4).clone.drop).1.pipe.is_closed = true) := by
  decide

/-- Claim C7 as amended: dropping ANY clone of a `LockPipe` immediately
closes the underlying pipe (sets its closed flag and wakes a parked reader,
if any), even when other clones remain alive; closing is idempotent, so
every later drop (including the last) finds the pipe already closed and
wakes nobody. -/
theorem c7_amended (s : LockPipe) :
    ((s.drop).1.pipe.is_closed = true) ∧
    ((s.drop).2 = s.pipe.read_waker.toList) ∧
    ((s.drop).1.clones = s.clones - 1) ∧
    (((s.drop).1.drop).1.pipe = (s.drop).1.pipe) ∧
    (((s.drop).1.drop).2 = []) := by
  refine ⟨rfl, rfl, rfl, ?_, ?_⟩ <;> simp [LockPipe.drop, Pipe.close]

theorem c7_amended_witness :
    (((LockPipe.new 4).clone.drop).1.pipe.is_closed = true) ∧
    ((((LockPipe.new 4).clone.drop).1.drop).2 = []) :=
  ⟨(c7_amended ((LockPipe.new 4).clone)).1,
    (c7_amended ((LockPipe.new 4).clone)).2.2.2.2⟩

/-- The host-side channels of a `WasiProcess` (`src/lib.rs`): the task-local
senders/receiver the stdio pseudo-files talk to. -/
inductive HostChannel where
  | stdinCh
  | stdoutCh
  | stderrCh
deriving DecidableEq, Repr

/-- The three pseudo-file types of `src/stdio.rs`: `Stdin`, `Stdout`,
`Stderr`. -/
inductive StdioFile where
  | stdinFile
  | stdoutFile
  | stderrFile
deriving DecidableEq, Repr

/-- Where each pseudo-file's `Write::write` sends the guest's bytes
(src/stdio.rs): `Stdin::write` always errors ("can not write to stdin"),
`Stdout::write` sends on the task-local `STDOUT` sender, `Stderr::write`
sends on the task-local `STDERR` sender. -/
def StdioFile.writeTarget : StdioFile → Option HostChannel
  | .stdinFile => none
  | .stdoutFile => some .stdoutCh
  | .stderrFile => some .stderrCh

/-- The wasi stream slots a pseudo-file can be installed into. -/
inductive StreamSlot where
  | stdinSlot
  | stdoutSlot
  | stderrSlot
deriving DecidableEq, Repr

/-- `add_stdio` (src/lib.rs lines 68-73): the pseudo-file installed in each
slot of the wasi state builder. The source reads
`state.stdin(Box::new(stdio::Stdin)).stdout(Box::new(stdio::Stdout))
.stderr(Box::new(stdio::Stdout))` — the stderr slot gets `Stdout`,
not `Stderr`. -/
def add_stdio : StreamSlot → StdioFile
  | .stdinSlot => .stdinFile
  | .stdoutSlot => .stdoutFile
  | .stderrSlot => .stdoutFile

/-- Claim C8: evaluation at the failing input. After `add_stdio`, a guest
write to its stderr file goes through `stdio::Stdout`, whose `write` sends
on the host's STDOUT channel — not the STDERR channel, which nothing ever
writes to. The crate's `Stderr` pseudo-file would target the STDERR channel
(last conjunct) but `add_stdio` does not install it. -/
theorem c8_stderr_misrouted :
    ((add_stdio .stderrSlot) = .stdoutFile) ∧
    ((add_stdio .stderrSlot).writeTarget = some .stdoutCh) ∧
    ((add_stdio .stderrSlot).writeTarget ≠ some .stderrCh) ∧
    (StdioFile.stderrFile.writeTarget = some .stderrCh) := by
  decide

/-- A tokio `mpsc::Sender` as used by `WasiStdin` (`src/lib.rs`): the
number of queued messages, the channel bound, and whether the receiver is
still alive. -/
structure MpscSender where
  queued : Nat
  bound : Nat
  receiver_alive : Bool
deriving DecidableEq, Repr

/-- `Sender::poll_ready`: error if the receiver is gone, pending if the
channel is full, ready otherwise. -/
def MpscSender.poll_ready (s : MpscSender) : Poll (IORes Unit) :=
  if s.receiver_alive = false then .ready (.err .brokenPipe)
  else if s.bound ≤ s.queued then .pending
  else .ready (.ok ())

/-- `WasiStdin` (src/lib.rs lines 84-86): an optional sender; `None` after
shutdown. -/
structure WasiStdin where
  tx : Option MpscSender
deriving DecidableEq, Repr

/-- `WasiStdin::poll_write` (src/lib.rs lines 89-112): with no sender,
fails with "called write after shutdown"; otherwise `poll_ready` then
`try_send` of the whole buffer, reporting `buf.len()` bytes written. -/
def WasiStdin.poll_write (st : WasiStdin) (buf : List Byte) :
    WasiStdin × Poll (IORes Nat) :=
  match st.tx with
  | none => (st, .ready (.err (.other "called write after shutdown")))
  | some tx =>
    match tx.poll_ready with
    | .pending => (st, .pending)
    | .ready (.err e) => (st, .ready (.err e))
    | .ready (.ok _) =>
      ({ tx := some { tx with queued := tx.queued + 1 } },
        .ready (.ok buf.length))

/-- `WasiStdin::poll_shutdown` (src/lib.rs lines 118-121): drops the
sender (`self.tx.take()`) and returns ready `Ok`. -/
def WasiStdin.poll_shutdown (_st : WasiStdin) : WasiStdin × Poll (IORes Unit) :=
  ({ tx := none }, .ready (.ok ()))

/-- The channel bound passed to all three `mpsc::channel` calls in
`WasiProcess::new` (src/lib.rs lines 172-174). -/
def channelBound : Nat := 5

/-- The pieces of `WasiProcess::new` (src/lib.rs lines 171-195) the claims
are about: the stdin writer handle and the message bounds of the three
mpsc channels it allocates. -/
structure WasiProcess where
  stdin : WasiStdin
  stdin_bound : Nat
  stdout_bound : Nat
  stderr_bound : Nat
deriving DecidableEq, Repr

/-- `WasiProcess::new`: takes only the wasm instance (no capacity
configuration parameter exists) and allocates the three channels with
`mpsc::channel(5)` each. -/
def WasiProcess.new : WasiProcess :=
  { stdin := { tx := some { queued := 0, bound := channelBound, receiver_alive := true } }
    stdin_bound := channelBound
    stdout_bound := channelBound
    stderr_bound := channelBound }

/-- Claim C9 counterexample: the buffer bounds `WasiProcess::new` actually
uses are 5 (messages), identical for all three streams and not 1024; the
constructor takes no per-stream capacity options at all (it is a constant
here because the source function's only parameter is the wasm instance). -/
theorem c9_counterexample :
    (WasiProcess.new.stdin_bound = 5) ∧
    (WasiProcess.new.stdin_bound ≠ 1024) ∧
    (WasiProcess.new.stdout_bound ≠ 1024) ∧
    (WasiProcess.new.stderr_bound ≠ 1024) := by
  decide

/-- Claim C9 as amended: `WasiProcess::new` accepts no buffer-capacity
configuration; it allocates three mpsc channels with a fixed bound of 5
messages each (a message is a whole written chunk, so the bound is not a
byte capacity), and the stdin writer starts with an empty channel of that
same bound. -/
theorem c9_amended :
    (WasiProcess.new.stdin_bound = channelBound) ∧
    (WasiProcess.new.stdout_bound = channelBound) ∧
    (WasiProcess.new.stderr_bound = channelBound) ∧
    (channelBound = 5) ∧
    (WasiProcess.new.stdin.tx
      = some { queued := 0, bound := channelBound, receiver_alive := true }) := by
  decide

/-- Claim C10: `WasiStdin::poll_shutdown` always succeeds and is
idempotent (it just drops the sender), and after it every `poll_write` on
the same handle fails with "called write after shutdown" and leaves the
state unchanged — no bytes are transferred. -/
theorem c10_stdin_write_after_shutdown (st : WasiStdin) (buf : List Byte) :
    ((st.poll_shutdown).2 = .ready (.ok ())) ∧
    ((st.poll_shutdown).1.poll_shutdown = ((st.poll_shutdown).1, .ready (.ok ()))) ∧
    (((st.poll_shutdown).1.poll_write buf).2
      = .ready (.err (.other "called write after shutdown"))) ∧
    (((st.poll_shutdown).1.poll_write buf).1 = (st.poll_shutdown).1) := by
  exact ⟨rfl, rfl, rfl, rfl⟩

theorem c10_stdin_write_after_shutdown_witness :
    ((WasiStdin.poll_shutdown { tx := some { queued := 0, bound := 5, receiver_alive := true } }).1.poll_write
        [1, 2, 3]).2
      = .ready (.err (.other "called write after shutdown")) :=
  (c10_stdin_write_after_shutdown
    { tx := some { queued := 0, bound := 5, receiver_alive := true } } [1, 2, 3]).2.2.1
